import Mathlib

/-!
Shallow embedding of the pivot-utility core (`src/pivot_util`): the
specification data model, the validator, the destination resolver and the
generator orchestration, together with theorems settling the frozen claims.

The embedding mirrors `src/pivot_util/constants.py`, `field_specs.py`,
`errors.py` and `pivot_util.py`. The live Excel workbook is replaced by an
explicit `Workbook` value (sheets with their list objects, pivot-table names
and used-range content snapshot), and the engine calls the generator issues
are recorded as an explicit `Effect` trace.
-/

namespace PivotUtil

/-- Embeds `SummaryFunction` from `constants.py`: the closed enum of allowed
summary functions. -/
inductive SummaryFunction where
  | sum
  | count
  | avg
deriving DecidableEq, Repr, Fintype

/-- A Python value stored in a `DataFieldSpec.function` slot. The source is
dynamically typed, so besides the enum members any other value (the tests use
the string `"bad"`) can appear; `isinstance(value, SummaryFunction)` holds
exactly on the `enum` constructor. -/
inductive FuncValue where
  | enum (f : SummaryFunction)
  | other (s : String)
deriving DecidableEq, Repr

/-- Embeds `DestinationHandling` from `constants.py`: the closed enum of
destination-handling policies actually declared in the source (four members;
the tests and the example script also mention a `FIND_OR_CREATE` member that
the enum does not declare). -/
inductive DestinationHandling where
  | existingClear
  | existingForceClear
  | existingNoClear
  | new
deriving DecidableEq, Repr, Fintype

/-- Excel COM orientation constant `XL_ROW_FIELD` (`constants.py`). -/
def XL_ROW_FIELD : Nat := 1

/-- Excel COM orientation constant `XL_COLUMN_FIELD` (`constants.py`). -/
def XL_COLUMN_FIELD : Nat := 2

/-- Excel COM orientation constant `XL_DATA_FIELD` (`constants.py`). -/
def XL_DATA_FIELD : Nat := 4

/-- Excel COM summary constant `XL_SUM` (`constants.py`). -/
def XL_SUM : Int := -4157

/-- Excel COM summary constant `XL_COUNT` (`constants.py`). -/
def XL_COUNT : Int := -4112

/-- Excel COM summary constant `XL_AVG` (`constants.py`). -/
def XL_AVG : Int := -4106

/-- Embeds the error taxonomy of `errors.py`: `ValidationError` and
`DestinationError`, both below one base error kind; each carries the
human-readable message the source formats. -/
inductive PivotErr where
  | validation (msg : String)
  | destination (msg : String)
deriving DecidableEq, Repr

/-- Embeds `RowFieldSpec` from `field_specs.py`. -/
structure RowFieldSpec where
  name : String
  caption : Option String
deriving DecidableEq, Repr

/-- Embeds `ColumnFieldSpec` from `field_specs.py`. -/
structure ColumnFieldSpec where
  name : String
  caption : Option String
deriving DecidableEq, Repr

/-- Embeds `DataFieldSpec` from `field_specs.py`; `function` holds an
arbitrary dynamic value, as in the source. -/
structure DataFieldSpec where
  name : String
  function : FuncValue
  caption : Option String
  numberFormat : Option String
deriving DecidableEq, Repr

/-- A snapshot of cell content as `sheet.used_range.value` returns it:
`pynone` for an absent value, a string, a nested sequence (list/tuple), a
number or a boolean. Mirrors the cases `_is_empty_value` distinguishes. -/
inductive Value where
  | pynone
  | str (s : String)
  | seq (items : List Value)
  | num (n : Int)
  | bool (b : Bool)

/-- Python whitespace for `str.strip()`, restricted to the ASCII whitespace
characters: space, tab, newline, carriage return, vertical tab, form feed. -/
def pyIsSpace (c : Char) : Bool :=
  c == ' ' || c == '\t' || c == '\n' || c == '\r' || c == '\x0b' || c == '\x0c'

/-- Python `str.strip()` on the character list: drop whitespace from both
ends. -/
def pyStripList (l : List Char) : List Char :=
  ((l.dropWhile pyIsSpace).reverse.dropWhile pyIsSpace).reverse

/-- Python `str.strip()`. -/
def pyStrip (s : String) : String :=
  ⟨pyStripList s.data⟩

/-- Python `str.lower()` (ASCII case folding, which is all the source's
inputs use). -/
def pyLower (s : String) : String :=
  ⟨s.data.map Char.toLower⟩

/-- `name.strip().lower()`, the normalisation both column-name checks in
`pivot_util.py` apply before comparing. -/
def normName (s : String) : String :=
  pyLower (pyStrip s)

mutual

/-- Embeds `_is_empty_value` from `pivot_util.py`: `None` is empty, a
list/tuple is empty iff all items are, a string is empty iff it strips to
`""`, anything else is not empty. -/
def isEmptyValue : Value → Bool
  | Value.pynone => true
  | Value.seq items => isEmptyValues items
  | Value.str s => pyStrip s == ""
  | Value.num _ => false
  | Value.bool _ => false

/-- `all(_is_empty_value(item) for item in value)`. -/
def isEmptyValues : List Value → Bool
  | [] => true
  | v :: vs => isEmptyValue v && isEmptyValues vs

end

/-- A named Excel Table (ListObject) with its ordered column names, as
`_find_list_object` / `_list_object_column_names` observe it. -/
structure ListObjectRec where
  name : String
  columns : List String
deriving DecidableEq, Repr

/-- A worksheet as the core observes it: its name, the list objects it hosts,
the names of the pivot tables already on it, and the current
`used_range.value` snapshot. -/
structure SheetRec where
  name : String
  listObjects : List ListObjectRec
  pivotNames : List String
  usedRange : Value

/-- A workbook: its ordered sheet collection. -/
structure Workbook where
  sheets : List SheetRec

/-- Embeds `PivotSpec` from `pivot_spec.py` (the workbook is passed
separately to each operation, since the embedding threads state
explicitly). -/
structure PivotSpec where
  tableName : String
  pivotSheetName : String
  pivotTableName : String
  pivotTopLeftCell : String
  rowFields : List RowFieldSpec
  columnFields : List ColumnFieldSpec
  dataFields : List DataFieldSpec
  destinationHandling : Option DestinationHandling
  maxRowFields : Nat
  maxColumnFields : Nat
  maxDataFields : Nat
  tableStyle : Option String
  showRowStripes : Bool

/-- Embeds `_find_list_object`: scan the sheets in order and return the first
list object carrying the requested table name, `none` when no sheet has
one. -/
def findListObject (wb : Workbook) (tableName : String) : Option ListObjectRec :=
  wb.sheets.findSome? (fun sh => sh.listObjects.find? (fun lo => lo.name == tableName))

/-- Message of the row-depth failure in `_validate_spec_inputs`. -/
def rowDepthError (spec : PivotSpec) : PivotErr :=
  let d := spec.rowFields.length
  let m := spec.maxRowFields
  PivotErr.validation s!"Row field depth {d} exceeds max of {m}."

/-- Message of the column-depth failure in `_validate_spec_inputs`. -/
def colDepthError (spec : PivotSpec) : PivotErr :=
  let d := spec.columnFields.length
  let m := spec.maxColumnFields
  PivotErr.validation s!"Column field depth {d} exceeds max of {m}."

/-- Message of the data-field lower-bound failure in
`_validate_spec_inputs`. -/
def noDataFieldError : PivotErr :=
  PivotErr.validation "At least one data field is required."

/-- Message of the data-field upper-bound failure in
`_validate_spec_inputs`. -/
def dataCountError (spec : PivotSpec) : PivotErr :=
  let d := spec.dataFields.length
  let m := spec.maxDataFields
  PivotErr.validation s!"Data fields count {d} exceeds max of {m}."

/-- How Python renders the offending `function` value inside the
unsupported-function message. -/
def funcValueStr : FuncValue → String
  | FuncValue.enum SummaryFunction.sum => "SummaryFunction.SUM"
  | FuncValue.enum SummaryFunction.count => "SummaryFunction.COUNT"
  | FuncValue.enum SummaryFunction.avg => "SummaryFunction.AVG"
  | FuncValue.other s => s

/-- Message of the unsupported-function failure in
`_validate_spec_inputs`. -/
def unsupportedFunctionError (df : DataFieldSpec) : PivotErr :=
  let n := df.name
  let f := funcValueStr df.function
  PivotErr.validation s!"Data field '{n}' uses unsupported function '{f}'."

/-- The first data field (in list order) whose `function` is not a
`SummaryFunction` member — the field whose check fires first in the source's
`for data_field in spec.data_fields` loop. -/
def firstBadFunction : List DataFieldSpec → Option DataFieldSpec
  | [] => Option.none
  | df :: rest =>
    match df.function with
    | FuncValue.enum _ => firstBadFunction rest
    | FuncValue.other _ => some df

/-- Embeds `_validate_spec_inputs`: the depth caps, the data-field count
bounds and the per-data-field `isinstance(function, SummaryFunction)` check,
in source order. -/
def validateSpecInputs (spec : PivotSpec) : Except PivotErr Unit :=
  if spec.rowFields.length > spec.maxRowFields then
    Except.error (rowDepthError spec)
  else if spec.columnFields.length > spec.maxColumnFields then
    Except.error (colDepthError spec)
  else if spec.dataFields.length = 0 then
    Except.error noDataFieldError
  else if spec.dataFields.length > spec.maxDataFields then
    Except.error (dataCountError spec)
  else
    match firstBadFunction spec.dataFields with
    | some df => Except.error (unsupportedFunctionError df)
    | Option.none => Except.ok ()

/-- Message of the table-not-found failure in `_validate_and_get_table`. -/
def tableNotFoundError (spec : PivotSpec) : PivotErr :=
  let t := spec.tableName
  PivotErr.validation s!"Table '{t}' not found in workbook."

/-- Embeds `_validate_unique_column_names`: the stripped, lowercased column
names must be pairwise distinct. -/
def validateUniqueColumnNames (columnNames : List String) : Except PivotErr Unit :=
  let lowered := columnNames.map normName
  if lowered.Nodup then Except.ok ()
  else Except.error (PivotErr.validation "Source table has duplicate column names.")

/-- The requested field names, row then column then data, in list order — the
`requested` list `_validate_field_names_exist` builds. -/
def requestedNames (rowFields : List RowFieldSpec) (columnFields : List ColumnFieldSpec)
    (dataFields : List DataFieldSpec) : List String :=
  rowFields.map RowFieldSpec.name ++ columnFields.map ColumnFieldSpec.name
    ++ dataFields.map DataFieldSpec.name

/-- The requested names with no strip-lowercase match among the source
columns — the `missing` list `_validate_field_names_exist` computes. -/
def missingNames (rowFields : List RowFieldSpec) (columnFields : List ColumnFieldSpec)
    (dataFields : List DataFieldSpec) (columnNames : List String) : List String :=
  let existing := columnNames.map normName
  (requestedNames rowFields columnFields dataFields).filter
    (fun n => !(existing.contains (normName n)))

/-- Message of the missing-fields failure, comma-joining every missing
name. -/
def fieldsNotFoundError (missing : List String) : PivotErr :=
  let joined := String.intercalate ", " missing
  PivotErr.validation s!"Fields not found in table: {joined}"

/-- Embeds `_validate_field_names_exist`. -/
def validateFieldNamesExist (rowFields : List RowFieldSpec)
    (columnFields : List ColumnFieldSpec) (dataFields : List DataFieldSpec)
    (columnNames : List String) : Except PivotErr Unit :=
  let missing := missingNames rowFields columnFields dataFields columnNames
  if missing.isEmpty then Except.ok ()
  else Except.error (fieldsNotFoundError missing)

/-- Message of the duplicate-pivot-name failure. -/
def pivotNameExistsError (pivotTableName : String) : PivotErr :=
  let n := pivotTableName
  PivotErr.validation s!"Pivot table name '{n}' already exists."

/-- Embeds `_validate_pivot_table_name_unique`: scan every sheet's pivot
tables and fail when one's `Name` equals the requested name exactly. -/
def validatePivotTableNameUnique (wb : Workbook) (pivotTableName : String) :
    Except PivotErr Unit :=
  if wb.sheets.any (fun sh => sh.pivotNames.contains pivotTableName) then
    Except.error (pivotNameExistsError pivotTableName)
  else Except.ok ()

/-- Embeds `_validate_and_get_table`: run the input checks, locate the source
table, then the column-uniqueness, field-existence and pivot-name checks, in
source order, returning the table on success. -/
def validateAndGetTable (wb : Workbook) (spec : PivotSpec) :
    Except PivotErr ListObjectRec :=
  match validateSpecInputs spec with
  | Except.error e => Except.error e
  | Except.ok _ =>
    match findListObject wb spec.tableName with
    | Option.none => Except.error (tableNotFoundError spec)
    | some lo =>
      match validateUniqueColumnNames lo.columns with
      | Except.error e => Except.error e
      | Except.ok _ =>
        match validateFieldNamesExist spec.rowFields spec.columnFields
            spec.dataFields lo.columns with
        | Except.error e => Except.error e
        | Except.ok _ =>
          match validatePivotTableNameUnique wb spec.pivotTableName with
          | Except.error e => Except.error e
          | Except.ok _ => Except.ok lo

/-- Embeds `workbook.sheets[name]` lookup (the `try ... except` at the top of
`_resolve_destination_sheet`): the first sheet with the requested name, or
`none`. -/
def findSheet (wb : Workbook) (name : String) : Option SheetRec :=
  wb.sheets.find? (fun sh => sh.name == name)

/-- The sheet `workbook.sheets.add` creates: empty content, no list objects,
no pivot tables. -/
def newSheet (name : String) : SheetRec :=
  ⟨name, [], [], Value.pynone⟩

/-- Message of the already-exists failure under policy `NEW`. -/
def sheetExistsError (name : String) : PivotErr :=
  PivotErr.destination s!"Sheet '{name}' already exists."

/-- Message of the not-empty failure under `EXISTING_CLEAR` (or an absent
policy). -/
def sheetNotEmptyError (name : String) : PivotErr :=
  PivotErr.destination s!"Sheet '{name}' is not empty under ExistingClear rules."

/-- Message of the not-found failure under the three reuse policies. -/
def sheetNotFoundError (name : String) : PivotErr :=
  PivotErr.destination s!"Sheet '{name}' was not found."

/-- Embeds `_resolve_destination_sheet`. On success it returns the updated
workbook, the resolved sheet, and whether the sheet was newly created (the
one mutation, `sheets.add`, made observable). -/
def resolveDestinationSheet (wb : Workbook) (spec : PivotSpec) :
    Except PivotErr (Workbook × SheetRec × Bool) :=
  match findSheet wb spec.pivotSheetName with
  | some sh =>
    match spec.destinationHandling with
    | some DestinationHandling.new =>
      Except.error (sheetExistsError spec.pivotSheetName)
    | some DestinationHandling.existingNoClear => Except.ok (wb, sh, false)
    | some DestinationHandling.existingForceClear => Except.ok (wb, sh, false)
    | some DestinationHandling.existingClear =>
      if isEmptyValue sh.usedRange then Except.ok (wb, sh, false)
      else Except.error (sheetNotEmptyError spec.pivotSheetName)
    | Option.none =>
      if isEmptyValue sh.usedRange then Except.ok (wb, sh, false)
      else Except.error (sheetNotEmptyError spec.pivotSheetName)
  | Option.none =>
    match spec.destinationHandling with
    | some DestinationHandling.existingClear =>
      Except.error (sheetNotFoundError spec.pivotSheetName)
    | some DestinationHandling.existingForceClear =>
      Except.error (sheetNotFoundError spec.pivotSheetName)
    | some DestinationHandling.existingNoClear =>
      Except.error (sheetNotFoundError spec.pivotSheetName)
    | some DestinationHandling.new =>
      Except.ok (⟨wb.sheets ++ [newSheet spec.pivotSheetName]⟩,
        newSheet spec.pivotSheetName, true)
    | Option.none =>
      Except.ok (⟨wb.sheets ++ [newSheet spec.pivotSheetName]⟩,
        newSheet spec.pivotSheetName, true)

/-- One engine instruction issued by `generate_pivot`, in the order the
source issues them. -/
inductive Effect where
  | destinationLookup (sheetName : String)
  | createSheet (sheetName : String)
  | clearSheet (sheetName : String)
  | createCache (tableName : String)
  | createPivotTable (pivotName : String) (anchor : String)
  | setOrientation (fieldName : String) (axis : Nat)
  | setPosition (fieldName : String) (pos : Nat)
  | setFunction (fieldName : String) (code : Int)
  | setCaption (fieldName : String) (caption : String)
  | setNumberFormat (fieldName : String) (fmt : String)
  | setTableStyle (style : String)
  | setRowStripes (b : Bool)
deriving DecidableEq, Repr

/-- Python truthiness of an `Optional[str]`: `if x:` holds exactly when the
value is present and non-empty. -/
def truthyStr : Option String → Bool
  | some s => !(s == "")
  | Option.none => false

/-- The caption instruction a field's `if field.caption: pf.Caption = ...`
emits. -/
def captionEffects (fieldName : String) (caption : Option String) : List Effect :=
  match caption with
  | some c => if c == "" then [] else [Effect.setCaption fieldName c]
  | Option.none => []

/-- Instructions of the row-field loop in `generate_pivot`: orientation,
1-based position, optional caption, for each field in list order. -/
def rowFieldEffects : List RowFieldSpec → Nat → List Effect
  | [], _ => []
  | f :: rest, idx =>
    Effect.setOrientation f.name XL_ROW_FIELD :: Effect.setPosition f.name idx ::
      (captionEffects f.name f.caption ++ rowFieldEffects rest (idx + 1))

/-- Instructions of the column-field loop in `generate_pivot`. -/
def columnFieldEffects : List ColumnFieldSpec → Nat → List Effect
  | [], _ => []
  | f :: rest, idx =>
    Effect.setOrientation f.name XL_COLUMN_FIELD :: Effect.setPosition f.name idx ::
      (captionEffects f.name f.caption ++ columnFieldEffects rest (idx + 1))

/-- Embeds `_summary_function_to_excel`: the three enum members map to their
COM codes, anything else raises the unsupported-function `ValidationError`. -/
def summaryFunctionToExcel (function : FuncValue) : Except PivotErr Int :=
  match function with
  | FuncValue.enum SummaryFunction.sum => Except.ok XL_SUM
  | FuncValue.enum SummaryFunction.count => Except.ok XL_COUNT
  | FuncValue.enum SummaryFunction.avg => Except.ok XL_AVG
  | FuncValue.other s =>
    Except.error (PivotErr.validation s!"Unsupported summary function: {s}")

/-- The number-format instruction a data field's
`if data_field.number_format:` guard emits. -/
def numberFormatEffects (fieldName : String) (fmt : Option String) : List Effect :=
  match fmt with
  | some f => if f == "" then [] else [Effect.setNumberFormat fieldName f]
  | Option.none => []

/-- Instructions of the data-field loop in `generate_pivot`. Each field sets
orientation, then the mapped summary function, then optional caption and
number format; a non-enum function raises after the orientation was already
set, so the instructions issued before the failure are kept alongside the
error. -/
def dataFieldEffects : List DataFieldSpec → List Effect × Option PivotErr
  | [] => ([], Option.none)
  | df :: rest =>
    match summaryFunctionToExcel df.function with
    | Except.error e => ([Effect.setOrientation df.name XL_DATA_FIELD], some e)
    | Except.ok code =>
      let here := Effect.setOrientation df.name XL_DATA_FIELD ::
        Effect.setFunction df.name code ::
        (captionEffects df.name df.caption ++ numberFormatEffects df.name df.numberFormat)
      let tail := dataFieldEffects rest
      (here ++ tail.1, tail.2)

/-- The closing display-option instructions: table style when provided and
truthy, then the row-stripes flag, always. -/
def styleEffects (spec : PivotSpec) : List Effect :=
  (match spec.tableStyle with
    | some s => if s == "" then [] else [Effect.setTableStyle s]
    | Option.none => []) ++ [Effect.setRowStripes spec.showRowStripes]

/-- `sheet.clear()` on the named sheet: its content snapshot becomes
`None`. -/
def clearSheetContent (wb : Workbook) (name : String) : Workbook :=
  ⟨wb.sheets.map (fun sh =>
    if sh.name == name then ⟨sh.name, sh.listObjects, sh.pivotNames, Value.pynone⟩
    else sh)⟩

/-- Embeds `generate_pivot`: validate, resolve the destination, clear it when
the policy is `EXISTING_FORCE_CLEAR`, then issue the cache/table creation and
field-configuration instructions. Returns the instructions issued before any
failure together with the outcome. -/
def generatePivot (wb : Workbook) (spec : PivotSpec) :
    List Effect × Except PivotErr Workbook :=
  match validateAndGetTable wb spec with
  | Except.error e => ([], Except.error e)
  | Except.ok lo =>
    match resolveDestinationSheet wb spec with
    | Except.error e => ([Effect.destinationLookup spec.pivotSheetName], Except.error e)
    | Except.ok (wb1, sh, created) =>
      let lookupFx := Effect.destinationLookup spec.pivotSheetName ::
        (if created then [Effect.createSheet spec.pivotSheetName] else [])
      let forceClear := spec.destinationHandling == some DestinationHandling.existingForceClear
      let clearFx := if forceClear then [Effect.clearSheet sh.name] else []
      let wb2 := if forceClear then clearSheetContent wb1 sh.name else wb1
      let preFx := lookupFx ++ clearFx ++
        [Effect.createCache lo.name,
         Effect.createPivotTable spec.pivotTableName spec.pivotTopLeftCell]
      let rcFx := rowFieldEffects spec.rowFields 1 ++ columnFieldEffects spec.columnFields 1
      match dataFieldEffects spec.dataFields with
      | (dfx, some e) => (preFx ++ rcFx ++ dfx, Except.error e)
      | (dfx, Option.none) =>
        (preFx ++ rcFx ++ dfx ++ styleEffects spec, Except.ok wb2)

/-! ### The validation invariants, as properties of a specification and a
workbook (§3 of the documentation). -/

/-- Invariant: row-field depth within the cap. -/
def InvRowDepth (spec : PivotSpec) : Prop :=
  spec.rowFields.length ≤ spec.maxRowFields

/-- Invariant: column-field depth within the cap. -/
def InvColumnDepth (spec : PivotSpec) : Prop :=
  spec.columnFields.length ≤ spec.maxColumnFields

/-- Invariant: at least one data field. -/
def InvDataLower (spec : PivotSpec) : Prop :=
  spec.dataFields.length ≠ 0

/-- Invariant: data-field count within the cap. -/
def InvDataUpper (spec : PivotSpec) : Prop :=
  spec.dataFields.length ≤ spec.maxDataFields

/-- Invariant: every data field's function is a `SummaryFunction` member. -/
def InvFunctions (spec : PivotSpec) : Prop :=
  ∀ df ∈ spec.dataFields, ∃ f, df.function = FuncValue.enum f

/-- Invariant: the referenced source table exists in the workbook. -/
def InvTableExists (wb : Workbook) (spec : PivotSpec) : Prop :=
  ∃ lo, findListObject wb spec.tableName = some lo

/-- Invariant: the found source table has no duplicate column names (after
strip-lowercase normalisation). -/
def InvUniqueColumns (wb : Workbook) (spec : PivotSpec) : Prop :=
  ∀ lo, findListObject wb spec.tableName = some lo → (lo.columns.map normName).Nodup

/-- Invariant: every requested field name matches a column of the found
source table. -/
def InvFieldsExist (wb : Workbook) (spec : PivotSpec) : Prop :=
  ∀ lo, findListObject wb spec.tableName = some lo →
    missingNames spec.rowFields spec.columnFields spec.dataFields lo.columns = []

/-- Invariant: the requested pivot-table name is not already taken anywhere
in the workbook. -/
def InvPivotNameUnique (wb : Workbook) (spec : PivotSpec) : Prop :=
  ∀ sh ∈ wb.sheets, spec.pivotTableName ∉ sh.pivotNames

/-! ### Concrete fixtures, mirroring the repository's own test workbook
(`tests/test_pivot_util.py`): a `Table1` with the five columns of the sample
data, an empty and a non-empty destination sheet. -/

/-- The sample source table. -/
def sampleTable : ListObjectRec :=
  ⟨"Table1", ["Customer", "Category", "Qty", "Total", "Name"]⟩

/-- The sheet hosting the sample source table. -/
def dataSheet : SheetRec := ⟨"Data", [sampleTable], [], Value.pynone⟩

/-- An empty destination sheet named `Pivot`. -/
def emptyPivotSheet : SheetRec := ⟨"Pivot", [], [], Value.pynone⟩

/-- A non-empty destination sheet named `Pivot`. -/
def fullPivotSheet : SheetRec := ⟨"Pivot", [], [], Value.str "x"⟩

/-- Workbook with the data sheet and an empty `Pivot` destination. -/
def wbEmptyDest : Workbook := ⟨[dataSheet, emptyPivotSheet]⟩

/-- Workbook with the data sheet and a non-empty `Pivot` destination. -/
def wbFullDest : Workbook := ⟨[dataSheet, fullPivotSheet]⟩

/-- Workbook with the data sheet only (no destination yet). -/
def wbNoDest : Workbook := ⟨[dataSheet]⟩

/-- A well-formed sample specification over `Table1`, parameterised by the
destination-handling policy. -/
def sampleSpec (handling : Option DestinationHandling) : PivotSpec :=
  ⟨"Table1", "Pivot", "PT_Test", "A3",
   [⟨"Customer", Option.none⟩], [⟨"Category", Option.none⟩],
   [⟨"Qty", FuncValue.enum SummaryFunction.sum, Option.none, Option.none⟩],
   handling, 3, 3, 20, Option.none, true⟩

/-- A specification whose row-field list exceeds the default depth cap of
three. -/
def overdepthSpec : PivotSpec :=
  ⟨"Table1", "Pivot", "PT_Test", "A3",
   [⟨"Customer", Option.none⟩, ⟨"Category", Option.none⟩,
    ⟨"Qty", Option.none⟩, ⟨"Total", Option.none⟩],
   [], [⟨"Qty", FuncValue.enum SummaryFunction.sum, Option.none, Option.none⟩],
   some DestinationHandling.new, 3, 3, 20, Option.none, true⟩

/-- A specification with an empty data-field list. -/
def noDataSpec : PivotSpec :=
  ⟨"Table1", "Pivot", "PT_Test", "A3",
   [⟨"Customer", Option.none⟩], [], [],
   some DestinationHandling.new, 3, 3, 20, Option.none, true⟩

/-- A sheet on which a pivot table named `PT_Test` already exists. -/
def takenNameSheet : SheetRec := ⟨"Data", [sampleTable], ["PT_Test"], Value.pynone⟩

/-- Workbook whose only sheet already carries a pivot table named
`PT_Test`. -/
def wbTakenName : Workbook := ⟨[takenNameSheet]⟩

/-- A force-clear specification whose row field carries the empty string as
caption (a provided, but falsy, caption). -/
def emptyCaptionSpec : PivotSpec :=
  ⟨"Table1", "Pivot", "PT_Test", "A3",
   [⟨"Customer", some ""⟩], [⟨"Category", Option.none⟩],
   [⟨"Qty", FuncValue.enum SummaryFunction.sum, some "Qty!", some "0"⟩],
   some DestinationHandling.existingForceClear, 3, 3, 20,
   some "PivotStyleMedium9", true⟩

/-! ### Helper lemmas -/

theorem pyStripList_eq_nil_iff (l : List Char) :
    pyStripList l = [] ↔ ∀ c ∈ l, pyIsSpace c := by
  unfold pyStripList
  rw [List.reverse_eq_nil_iff, List.dropWhile_eq_nil_iff]
  constructor
  · intro h c hc
    rcases (List.takeWhile_append_dropWhile (p := pyIsSpace) (l := l)) ▸ hc with hm
    rcases List.mem_append.mp hm with h1 | h2
    · exact List.mem_takeWhile_imp h1
    · exact h c (List.mem_reverse.mpr h2)
  · intro h c hc
    exact h c ((List.dropWhile_sublist (p := pyIsSpace)).mem (List.mem_reverse.mp hc))

theorem pyStrip_eq_empty_iff (s : String) :
    (pyStrip s == "") = true ↔ s.data.all pyIsSpace = true := by
  rw [beq_iff_eq, List.all_eq_true]
  unfold pyStrip
  constructor
  · intro h
    have : pyStripList s.data = [] := by
      have := congrArg String.data h
      simpa using this
    exact (pyStripList_eq_nil_iff s.data).mp this
  · intro h
    have : pyStripList s.data = [] := (pyStripList_eq_nil_iff s.data).mpr h
    simp [this]

theorem isEmptyValues_eq_all (items : List Value) :
    isEmptyValues items = items.all isEmptyValue := by
  induction items with
  | nil => rfl
  | cons v vs ih => simp [isEmptyValues, ih]

theorem firstBadFunction_eq_none_iff (l : List DataFieldSpec) :
    firstBadFunction l = Option.none ↔ ∀ df ∈ l, ∃ f, df.function = FuncValue.enum f := by
  induction l with
  | nil => simp [firstBadFunction]
  | cons df rest ih =>
    cases hf : df.function with
    | enum f => simp [firstBadFunction, hf, ih]
    | other s => simp [firstBadFunction, hf]

theorem firstBadFunction_some_mem (l : List DataFieldSpec) (df : DataFieldSpec)
    (h : firstBadFunction l = some df) :
    df ∈ l ∧ ∃ s, df.function = FuncValue.other s := by
  induction l with
  | nil => exact Option.noConfusion h
  | cons d rest ih =>
    cases hf : d.function with
    | enum f =>
      simp only [firstBadFunction, hf] at h
      obtain ⟨hmem, hs⟩ := ih h
      exact ⟨List.mem_cons_of_mem d hmem, hs⟩
    | other s =>
      simp only [firstBadFunction, hf, Option.some.injEq] at h
      subst h
      exact ⟨List.mem_cons_self d rest, s, hf⟩

theorem validateSpecInputs_ok_iff (spec : PivotSpec) :
    validateSpecInputs spec = Except.ok () ↔
      InvRowDepth spec ∧ InvColumnDepth spec ∧ InvDataLower spec
      ∧ InvDataUpper spec ∧ InvFunctions spec := by
  unfold validateSpecInputs InvRowDepth InvColumnDepth InvDataLower InvDataUpper InvFunctions
  split_ifs with h1 h2 h3 h4
  · simp; rintro hle; omega
  · simp; rintro - hle; omega
  · simp
    intro _ _ hne
    exact absurd (List.length_eq_zero.mp h3) hne
  · simp; rintro - - - hle; omega
  · cases hfb : firstBadFunction spec.dataFields with
    | some df =>
      simp
      intro _ _ _ _
      obtain ⟨hmem, s, hs⟩ := firstBadFunction_some_mem spec.dataFields df hfb
      refine ⟨df, hmem, ?_⟩
      intro f hf
      rw [hs] at hf
      exact FuncValue.noConfusion hf
    | none =>
      simp
      refine ⟨Nat.le_of_not_lt h1, Nat.le_of_not_lt h2, ?_, Nat.le_of_not_lt h4,
        (firstBadFunction_eq_none_iff spec.dataFields).mp hfb⟩
      intro hnil
      exact h3 (by simp [hnil])

theorem validateUniqueColumnNames_ok_iff (cols : List String) :
    validateUniqueColumnNames cols = Except.ok () ↔ (cols.map normName).Nodup := by
  simp only [validateUniqueColumnNames]
  split_ifs with h
  · simp [h]
  · simp [h]

theorem validateFieldNamesExist_ok_iff (rf : List RowFieldSpec)
    (cf : List ColumnFieldSpec) (df : List DataFieldSpec) (cols : List String) :
    validateFieldNamesExist rf cf df cols = Except.ok ()
      ↔ missingNames rf cf df cols = [] := by
  simp only [validateFieldNamesExist]
  split_ifs with h
  · simp [List.isEmpty_iff.mp h]
  · simp
    intro hm
    exact h (List.isEmpty_iff.mpr hm)

theorem validateFieldNamesExist_err (rf : List RowFieldSpec)
    (cf : List ColumnFieldSpec) (df : List DataFieldSpec) (cols : List String)
    (h : missingNames rf cf df cols ≠ []) :
    validateFieldNamesExist rf cf df cols
      = Except.error (fieldsNotFoundError (missingNames rf cf df cols)) := by
  simp only [validateFieldNamesExist]
  rw [if_neg]
  intro hc
  exact h (List.isEmpty_iff.mp hc)

theorem validatePivotTableNameUnique_ok_iff (wb : Workbook) (n : String) :
    validatePivotTableNameUnique wb n = Except.ok ()
      ↔ ∀ sh ∈ wb.sheets, n ∉ sh.pivotNames := by
  unfold validatePivotTableNameUnique
  split_ifs with h
  · simp
    obtain ⟨sh, hsh, hc⟩ := List.any_eq_true.mp h
    exact ⟨sh, hsh, List.elem_iff.mp hc⟩
  · simp
    intro sh hsh hmem
    exact h (List.any_eq_true.mpr ⟨sh, hsh, List.elem_iff.mpr hmem⟩)

theorem validatePivotTableNameUnique_err (wb : Workbook) (n : String)
    (h : ∃ sh ∈ wb.sheets, n ∈ sh.pivotNames) :
    validatePivotTableNameUnique wb n = Except.error (pivotNameExistsError n) := by
  unfold validatePivotTableNameUnique
  rw [if_pos]
  obtain ⟨sh, hsh, hmem⟩ := h
  exact List.any_eq_true.mpr ⟨sh, hsh, List.elem_iff.mpr hmem⟩

theorem validateAndGetTable_input_err (wb : Workbook) (spec : PivotSpec)
    (e : PivotErr) (h : validateSpecInputs spec = Except.error e) :
    validateAndGetTable wb spec = Except.error e := by
  unfold validateAndGetTable
  rw [h]

theorem captionEffects_mem (n : String) (c : String) (hc : c ≠ "") :
    Effect.setCaption n c ∈ captionEffects n (some c) := by
  simp [captionEffects, hc]

theorem rowFieldEffects_mem (fields : List RowFieldSpec) :
    ∀ (start i : Nat) (f : RowFieldSpec), fields.get? i = some f →
      Effect.setOrientation f.name XL_ROW_FIELD ∈ rowFieldEffects fields start
      ∧ Effect.setPosition f.name (start + i) ∈ rowFieldEffects fields start
      ∧ ∀ c, f.caption = some c → c ≠ "" →
          Effect.setCaption f.name c ∈ rowFieldEffects fields start := by
  induction fields with
  | nil =>
    intro start i f h
    simp at h
  | cons g rest ih =>
    intro start i f h
    cases i with
    | zero =>
      simp only [List.get?_cons_zero, Option.some.injEq] at h
      subst h
      refine ⟨?_, ?_, ?_⟩
      · rw [rowFieldEffects]
        exact List.Mem.head _
      · rw [rowFieldEffects, Nat.add_zero]
        exact List.Mem.tail _ (List.Mem.head _)
      · intro c hc hne
        rw [rowFieldEffects]
        refine List.Mem.tail _ (List.Mem.tail _ (List.mem_append_left _ ?_))
        rw [hc]
        exact captionEffects_mem g.name c hne
    | succ j =>
      simp only [List.get?_cons_succ] at h
      obtain ⟨h1, h2, h3⟩ := ih (start + 1) j f h
      have hpos : start + (j + 1) = start + 1 + j := by omega
      refine ⟨?_, ?_, ?_⟩
      · rw [rowFieldEffects]
        exact List.Mem.tail _ (List.Mem.tail _ (List.mem_append_right _ h1))
      · rw [rowFieldEffects, hpos]
        exact List.Mem.tail _ (List.Mem.tail _ (List.mem_append_right _ h2))
      · intro c hc hne
        rw [rowFieldEffects]
        exact List.Mem.tail _ (List.Mem.tail _ (List.mem_append_right _ (h3 c hc hne)))

theorem columnFieldEffects_mem (fields : List ColumnFieldSpec) :
    ∀ (start i : Nat) (f : ColumnFieldSpec), fields.get? i = some f →
      Effect.setOrientation f.name XL_COLUMN_FIELD ∈ columnFieldEffects fields start
      ∧ Effect.setPosition f.name (start + i) ∈ columnFieldEffects fields start
      ∧ ∀ c, f.caption = some c → c ≠ "" →
          Effect.setCaption f.name c ∈ columnFieldEffects fields start := by
  induction fields with
  | nil =>
    intro start i f h
    simp at h
  | cons g rest ih =>
    intro start i f h
    cases i with
    | zero =>
      simp only [List.get?_cons_zero, Option.some.injEq] at h
      subst h
      refine ⟨?_, ?_, ?_⟩
      · rw [columnFieldEffects]
        exact List.Mem.head _
      · rw [columnFieldEffects, Nat.add_zero]
        exact List.Mem.tail _ (List.Mem.head _)
      · intro c hc hne
        rw [columnFieldEffects]
        refine List.Mem.tail _ (List.Mem.tail _ (List.mem_append_left _ ?_))
        rw [hc]
        exact captionEffects_mem g.name c hne
    | succ j =>
      simp only [List.get?_cons_succ] at h
      obtain ⟨h1, h2, h3⟩ := ih (start + 1) j f h
      have hpos : start + (j + 1) = start + 1 + j := by omega
      refine ⟨?_, ?_, ?_⟩
      · rw [columnFieldEffects]
        exact List.Mem.tail _ (List.Mem.tail _ (List.mem_append_right _ h1))
      · rw [columnFieldEffects, hpos]
        exact List.Mem.tail _ (List.Mem.tail _ (List.mem_append_right _ h2))
      · intro c hc hne
        rw [columnFieldEffects]
        exact List.Mem.tail _ (List.Mem.tail _ (List.mem_append_right _ (h3 c hc hne)))

theorem dataFieldEffects_mem (fields : List DataFieldSpec) :
    ∀ (i : Nat) (df : DataFieldSpec), fields.get? i = some df →
      (dataFieldEffects fields).2 = Option.none →
      ∀ code, summaryFunctionToExcel df.function = Except.ok code →
        Effect.setOrientation df.name XL_DATA_FIELD ∈ (dataFieldEffects fields).1
        ∧ Effect.setFunction df.name code ∈ (dataFieldEffects fields).1
        ∧ (∀ c, df.caption = some c → c ≠ "" →
            Effect.setCaption df.name c ∈ (dataFieldEffects fields).1)
        ∧ (∀ fmt, df.numberFormat = some fmt → fmt ≠ "" →
            Effect.setNumberFormat df.name fmt ∈ (dataFieldEffects fields).1) := by
  induction fields with
  | nil =>
    intro i df h
    simp at h
  | cons g rest ih =>
    intro i df h hok code hcode
    cases hg : summaryFunctionToExcel g.function with
    | error e =>
      rw [show dataFieldEffects (g :: rest)
          = ([Effect.setOrientation g.name XL_DATA_FIELD], some e) by
        simp [dataFieldEffects, hg]] at hok
      exact Option.noConfusion hok
    | ok gcode =>
      have hde : dataFieldEffects (g :: rest)
          = ((Effect.setOrientation g.name XL_DATA_FIELD ::
              Effect.setFunction g.name gcode ::
              (captionEffects g.name g.caption ++ numberFormatEffects g.name g.numberFormat))
              ++ (dataFieldEffects rest).1, (dataFieldEffects rest).2) := by
        simp [dataFieldEffects, hg]
      cases i with
      | zero =>
        simp only [List.get?_cons_zero, Option.some.injEq] at h
        subst h
        have hcg : gcode = code := by
          rw [hg] at hcode
          injection hcode
        subst hcg
        rw [hde]
        refine ⟨?_, ?_, ?_, ?_⟩
        · exact List.mem_append_left _ (List.Mem.head _)
        · exact List.mem_append_left _ (List.Mem.tail _ (List.Mem.head _))
        · intro c hc hne
          refine List.mem_append_left _
            (List.Mem.tail _ (List.Mem.tail _ (List.mem_append_left _ ?_)))
          rw [hc]
          exact captionEffects_mem g.name c hne
        · intro fmt hf hne
          refine List.mem_append_left _
            (List.Mem.tail _ (List.Mem.tail _ (List.mem_append_right _ ?_)))
          rw [hf]
          simp [numberFormatEffects, hne]
      | succ j =>
        simp only [List.get?_cons_succ] at h
        rw [hde] at hok
        obtain ⟨h1, h2, h3, h4⟩ := ih j df h hok code hcode
        rw [hde]
        refine ⟨?_, ?_, ?_, ?_⟩
        · exact List.mem_append_right _ h1
        · exact List.mem_append_right _ h2
        · intro c hc hne
          exact List.mem_append_right _ (h3 c hc hne)
        · intro fmt hf hne
          exact List.mem_append_right _ (h4 fmt hf hne)

/-! ### Claim theorems -/

/-- C4: The emptiness predicate used by destination resolution satisfies:
`None` is empty; a string is empty iff it is all whitespace; a nested
sequence is empty iff every element is empty (so the empty sequence is
empty); numbers and booleans are not empty; and in particular
`isEmpty([None, ["", " "], []]) = true` and `isEmpty([None, "x"]) = false`. -/
theorem c4_emptiness_predicate :
    isEmptyValue Value.pynone = true
    ∧ (∀ s : String, isEmptyValue (Value.str s) = true ↔ s.data.all pyIsSpace = true)
    ∧ (∀ items : List Value,
        isEmptyValue (Value.seq items) = true ↔ ∀ v ∈ items, isEmptyValue v = true)
    ∧ isEmptyValue (Value.seq []) = true
    ∧ (∀ n : Int, isEmptyValue (Value.num n) = false)
    ∧ (∀ b : Bool, isEmptyValue (Value.bool b) = false)
    ∧ isEmptyValue
        (Value.seq [Value.pynone, Value.seq [Value.str "", Value.str " "], Value.seq []]) = true
    ∧ isEmptyValue (Value.seq [Value.pynone, Value.str "x"]) = false := by
  refine ⟨rfl, ?_, ?_, rfl, fun _ => rfl, fun _ => rfl, by decide, by decide⟩
  · intro s
    exact pyStrip_eq_empty_iff s
  · intro items
    show isEmptyValues items = true ↔ _
    rw [isEmptyValues_eq_all, List.all_eq_true]

/-- Witness for C4 at concrete inputs. -/
theorem c4_emptiness_predicate_witness :
    isEmptyValue (Value.str "  \t ") = true ∧ isEmptyValue (Value.seq [Value.pynone]) = true :=
  ⟨(c4_emptiness_predicate.2.1 "  \t ").mpr (by decide),
   (c4_emptiness_predicate.2.2.1 [Value.pynone]).mpr (by decide)⟩

/-- C1: destination resolution follows the stated state machine for the
four explicit policies. If the destination exists: `CreateNew` (`NEW`) fails
with a DestinationFailure (already exists), `ReuseNoClear` and
`ReuseForceClear` return the existing sheet unmodified, and `ReuseIfEmpty`
(`EXISTING_CLEAR`) returns it iff it is empty, failing (not empty)
otherwise. If it does not exist: `CreateNew` creates and returns a fresh
sheet, while the three reuse policies fail (destination not found). -/
theorem c1_destination_resolution_state_machine :
    (∀ (wb : Workbook) (spec : PivotSpec) (sh : SheetRec),
      findSheet wb spec.pivotSheetName = some sh →
        (spec.destinationHandling = some DestinationHandling.new →
          resolveDestinationSheet wb spec =
            Except.error (sheetExistsError spec.pivotSheetName))
        ∧ (spec.destinationHandling = some DestinationHandling.existingNoClear →
          resolveDestinationSheet wb spec = Except.ok (wb, sh, false))
        ∧ (spec.destinationHandling = some DestinationHandling.existingForceClear →
          resolveDestinationSheet wb spec = Except.ok (wb, sh, false))
        ∧ (spec.destinationHandling = some DestinationHandling.existingClear →
          (isEmptyValue sh.usedRange = true →
            resolveDestinationSheet wb spec = Except.ok (wb, sh, false))
          ∧ (isEmptyValue sh.usedRange = false →
            resolveDestinationSheet wb spec =
              Except.error (sheetNotEmptyError spec.pivotSheetName))))
    ∧ (∀ (wb : Workbook) (spec : PivotSpec),
      findSheet wb spec.pivotSheetName = Option.none →
        (spec.destinationHandling = some DestinationHandling.new →
          resolveDestinationSheet wb spec =
            Except.ok (⟨wb.sheets ++ [newSheet spec.pivotSheetName]⟩,
              newSheet spec.pivotSheetName, true))
        ∧ (∀ h : DestinationHandling, spec.destinationHandling = some h →
            h ≠ DestinationHandling.new →
          resolveDestinationSheet wb spec =
            Except.error (sheetNotFoundError spec.pivotSheetName))) := by
  constructor
  · intro wb spec sh hfind
    refine ⟨?_, ?_, ?_, ?_⟩
    · intro hpol; simp [resolveDestinationSheet, hfind, hpol]
    · intro hpol; simp [resolveDestinationSheet, hfind, hpol]
    · intro hpol; simp [resolveDestinationSheet, hfind, hpol]
    · intro hpol
      constructor
      · intro he; simp [resolveDestinationSheet, hfind, hpol, he]
      · intro he; simp [resolveDestinationSheet, hfind, hpol, he]
  · intro wb spec hfind
    constructor
    · intro hpol; simp [resolveDestinationSheet, hfind, hpol]
    · intro h hpol hne
      cases h with
      | new => exact absurd rfl hne
      | existingClear => simp [resolveDestinationSheet, hfind, hpol]
      | existingForceClear => simp [resolveDestinationSheet, hfind, hpol]
      | existingNoClear => simp [resolveDestinationSheet, hfind, hpol]

/-- Witness for C1: a reuse policy on an existing destination returns it, a
create policy on a missing destination creates it, and `ReuseIfEmpty` on a
non-empty destination fails. -/
theorem c1_destination_resolution_state_machine_witness :
    resolveDestinationSheet wbFullDest
        (sampleSpec (some DestinationHandling.existingNoClear))
      = Except.ok (wbFullDest, fullPivotSheet, false)
    ∧ resolveDestinationSheet wbNoDest (sampleSpec (some DestinationHandling.new))
      = Except.ok (⟨wbNoDest.sheets ++ [newSheet "Pivot"]⟩, newSheet "Pivot", true)
    ∧ resolveDestinationSheet wbFullDest
        (sampleSpec (some DestinationHandling.existingClear))
      = Except.error (sheetNotEmptyError "Pivot") :=
  ⟨((c1_destination_resolution_state_machine.1 wbFullDest
      (sampleSpec (some DestinationHandling.existingNoClear)) fullPivotSheet
      rfl).2.1 rfl),
   ((c1_destination_resolution_state_machine.2 wbNoDest
      (sampleSpec (some DestinationHandling.new)) rfl).1 rfl),
   (((c1_destination_resolution_state_machine.1 wbFullDest
      (sampleSpec (some DestinationHandling.existingClear)) fullPivotSheet
      rfl).2.2.2 rfl).2 rfl)⟩

/-- C2 counterexample: the destination-policy enum declared in
`constants.py` has exactly four members — there is no fifth `FindOrCreate`
member — and the absent policy (`None`), which plays the find-or-create role
in `_resolve_destination_sheet`, does fail on an existing non-empty
destination, contradicting "never failing on existence". -/
theorem c2_counterexample_four_members_and_none_fails :
    Fintype.card DestinationHandling = 4
    ∧ resolveDestinationSheet wbFullDest (sampleSpec Option.none)
      = Except.error (sheetNotEmptyError "Pivot") := by
  constructor
  · decide
  · rfl

/-- C2 amended: `DestinationHandling` is a closed enum with exactly the
four members `CreateNew` (`NEW`), `ReuseIfEmpty` (`EXISTING_CLEAR`),
`ReuseForceClear` and `ReuseNoClear`; the find-or-create role is played by
the absent policy (`None`), under which destination resolution returns an
existing destination only when it is empty (failing "not empty" otherwise)
and creates the destination when it does not exist. -/
theorem c2_amended_policy_enum_and_absent_policy :
    Fintype.card DestinationHandling = 4
    ∧ (∀ h : DestinationHandling,
        h = DestinationHandling.existingClear ∨ h = DestinationHandling.existingForceClear
        ∨ h = DestinationHandling.existingNoClear ∨ h = DestinationHandling.new)
    ∧ (∀ (wb : Workbook) (spec : PivotSpec) (sh : SheetRec),
        spec.destinationHandling = Option.none →
        findSheet wb spec.pivotSheetName = some sh →
          (isEmptyValue sh.usedRange = true →
            resolveDestinationSheet wb spec = Except.ok (wb, sh, false))
          ∧ (isEmptyValue sh.usedRange = false →
            resolveDestinationSheet wb spec =
              Except.error (sheetNotEmptyError spec.pivotSheetName)))
    ∧ (∀ (wb : Workbook) (spec : PivotSpec),
        spec.destinationHandling = Option.none →
        findSheet wb spec.pivotSheetName = Option.none →
          resolveDestinationSheet wb spec =
            Except.ok (⟨wb.sheets ++ [newSheet spec.pivotSheetName]⟩,
              newSheet spec.pivotSheetName, true)) := by
  refine ⟨by decide, by decide, ?_, ?_⟩
  · intro wb spec sh hpol hfind
    constructor
    · intro he; simp [resolveDestinationSheet, hfind, hpol, he]
    · intro he; simp [resolveDestinationSheet, hfind, hpol, he]
  · intro wb spec hpol hfind
    simp [resolveDestinationSheet, hfind, hpol]

/-- Witness for the amended C2: the absent policy reuses an empty existing
destination and creates a missing one. -/
theorem c2_amended_policy_enum_and_absent_policy_witness :
    resolveDestinationSheet wbEmptyDest (sampleSpec Option.none)
      = Except.ok (wbEmptyDest, emptyPivotSheet, false)
    ∧ resolveDestinationSheet wbNoDest (sampleSpec Option.none)
      = Except.ok (⟨wbNoDest.sheets ++ [newSheet "Pivot"]⟩, newSheet "Pivot", true) :=
  ⟨(c2_amended_policy_enum_and_absent_policy.2.2.1 wbEmptyDest
      (sampleSpec Option.none) emptyPivotSheet rfl rfl).1 rfl,
   c2_amended_policy_enum_and_absent_policy.2.2.2 wbNoDest
      (sampleSpec Option.none) rfl rfl⟩

/-- C3: `validate` (= `_validate_and_get_table`) fails with a
ValidationFailure iff at least one invariant is violated, and it reports the
first violated invariant in exactly this order: row-depth cap, column-depth
cap, data-field lower bound, data-field upper bound, per-data-field
aggregation-function legality (first offender), source-table existence,
duplicate-column-name check, missing-field-name check, pivot-table-name
uniqueness. -/
theorem c3_validate_iff_and_first_violation_order (wb : Workbook) (spec : PivotSpec) :
    ((∃ lo, validateAndGetTable wb spec = Except.ok lo) ↔
      (InvRowDepth spec ∧ InvColumnDepth spec ∧ InvDataLower spec ∧ InvDataUpper spec
       ∧ InvFunctions spec ∧ InvTableExists wb spec ∧ InvUniqueColumns wb spec
       ∧ InvFieldsExist wb spec ∧ InvPivotNameUnique wb spec))
    ∧ (¬ InvRowDepth spec →
        validateAndGetTable wb spec = Except.error (rowDepthError spec))
    ∧ (InvRowDepth spec → ¬ InvColumnDepth spec →
        validateAndGetTable wb spec = Except.error (colDepthError spec))
    ∧ (InvRowDepth spec → InvColumnDepth spec → ¬ InvDataLower spec →
        validateAndGetTable wb spec = Except.error noDataFieldError)
    ∧ (InvRowDepth spec → InvColumnDepth spec → InvDataLower spec → ¬ InvDataUpper spec →
        validateAndGetTable wb spec = Except.error (dataCountError spec))
    ∧ (InvRowDepth spec → InvColumnDepth spec → InvDataLower spec → InvDataUpper spec →
        ∀ df, firstBadFunction spec.dataFields = some df →
          validateAndGetTable wb spec = Except.error (unsupportedFunctionError df))
    ∧ (validateSpecInputs spec = Except.ok () →
        findListObject wb spec.tableName = Option.none →
        validateAndGetTable wb spec = Except.error (tableNotFoundError spec))
    ∧ (validateSpecInputs spec = Except.ok () →
        ∀ lo, findListObject wb spec.tableName = some lo →
        ¬ (lo.columns.map normName).Nodup →
        validateAndGetTable wb spec =
          Except.error (PivotErr.validation "Source table has duplicate column names."))
    ∧ (validateSpecInputs spec = Except.ok () →
        ∀ lo, findListObject wb spec.tableName = some lo →
        (lo.columns.map normName).Nodup →
        missingNames spec.rowFields spec.columnFields spec.dataFields lo.columns ≠ [] →
        validateAndGetTable wb spec = Except.error (fieldsNotFoundError
          (missingNames spec.rowFields spec.columnFields spec.dataFields lo.columns)))
    ∧ (validateSpecInputs spec = Except.ok () →
        ∀ lo, findListObject wb spec.tableName = some lo →
        (lo.columns.map normName).Nodup →
        missingNames spec.rowFields spec.columnFields spec.dataFields lo.columns = [] →
        (∃ sh ∈ wb.sheets, spec.pivotTableName ∈ sh.pivotNames) →
        validateAndGetTable wb spec =
          Except.error (pivotNameExistsError spec.pivotTableName)) := by
  refine ⟨?_, ?_, ?_, ?_, ?_, ?_, ?_, ?_, ?_, ?_⟩
  · constructor
    · rintro ⟨lo, hok⟩
      cases hv : validateSpecInputs spec with
      | error e => simp [validateAndGetTable, hv] at hok
      | ok u =>
        cases u
        cases hf : findListObject wb spec.tableName with
        | none => simp [validateAndGetTable, hv, hf] at hok
        | some lo1 =>
          cases hu : validateUniqueColumnNames lo1.columns with
          | error e => simp [validateAndGetTable, hv, hf, hu] at hok
          | ok u1 =>
            cases u1
            cases hm : validateFieldNamesExist spec.rowFields spec.columnFields
                spec.dataFields lo1.columns with
            | error e => simp [validateAndGetTable, hv, hf, hu, hm] at hok
            | ok u2 =>
              cases u2
              cases hp : validatePivotTableNameUnique wb spec.pivotTableName with
              | error e => simp [validateAndGetTable, hv, hf, hu, hm, hp] at hok
              | ok u3 =>
                cases u3
                obtain ⟨i1, i2, i3, i4, i5⟩ := (validateSpecInputs_ok_iff spec).mp hv
                refine ⟨i1, i2, i3, i4, i5, ⟨lo1, hf⟩, ?_, ?_, ?_⟩
                · intro lo2 h2
                  rw [hf, Option.some.injEq] at h2
                  subst h2
                  exact (validateUniqueColumnNames_ok_iff _).mp hu
                · intro lo2 h2
                  rw [hf, Option.some.injEq] at h2
                  subst h2
                  exact (validateFieldNamesExist_ok_iff spec.rowFields spec.columnFields
                    spec.dataFields _).mp hm
                · exact (validatePivotTableNameUnique_ok_iff wb spec.pivotTableName).mp hp
    · rintro ⟨i1, i2, i3, i4, i5, ⟨lo, hf⟩, i7, i8, i9⟩
      have hv : validateSpecInputs spec = Except.ok () :=
        (validateSpecInputs_ok_iff spec).mpr ⟨i1, i2, i3, i4, i5⟩
      have hu : validateUniqueColumnNames lo.columns = Except.ok () :=
        (validateUniqueColumnNames_ok_iff lo.columns).mpr (i7 lo hf)
      have hm : validateFieldNamesExist spec.rowFields spec.columnFields
          spec.dataFields lo.columns = Except.ok () :=
        (validateFieldNamesExist_ok_iff spec.rowFields spec.columnFields
          spec.dataFields lo.columns).mpr (i8 lo hf)
      have hp : validatePivotTableNameUnique wb spec.pivotTableName = Except.ok () :=
        (validatePivotTableNameUnique_ok_iff wb spec.pivotTableName).mpr i9
      exact ⟨lo, by simp [validateAndGetTable, hv, hf, hu, hm, hp]⟩
  · intro h1
    unfold InvRowDepth at h1
    apply validateAndGetTable_input_err
    unfold validateSpecInputs
    rw [if_pos (Nat.not_le.mp h1)]
  · intro h1 h2
    unfold InvRowDepth at h1
    unfold InvColumnDepth at h2
    apply validateAndGetTable_input_err
    unfold validateSpecInputs
    rw [if_neg (Nat.not_lt.mpr h1), if_pos (Nat.not_le.mp h2)]
  · intro h1 h2 h3
    unfold InvRowDepth at h1
    unfold InvColumnDepth at h2
    unfold InvDataLower at h3
    apply validateAndGetTable_input_err
    unfold validateSpecInputs
    rw [if_neg (Nat.not_lt.mpr h1), if_neg (Nat.not_lt.mpr h2), if_pos (not_not.mp h3)]
  · intro h1 h2 h3 h4
    unfold InvRowDepth at h1
    unfold InvColumnDepth at h2
    unfold InvDataLower at h3
    unfold InvDataUpper at h4
    apply validateAndGetTable_input_err
    unfold validateSpecInputs
    rw [if_neg (Nat.not_lt.mpr h1), if_neg (Nat.not_lt.mpr h2), if_neg h3,
      if_pos (Nat.not_le.mp h4)]
  · intro h1 h2 h3 h4 df hdf
    unfold InvRowDepth at h1
    unfold InvColumnDepth at h2
    unfold InvDataLower at h3
    unfold InvDataUpper at h4
    apply validateAndGetTable_input_err
    unfold validateSpecInputs
    rw [if_neg (Nat.not_lt.mpr h1), if_neg (Nat.not_lt.mpr h2), if_neg h3,
      if_neg (Nat.not_lt.mpr h4), hdf]
  · intro hv hf
    simp [validateAndGetTable, hv, hf]
  · intro hv lo hf hnd
    have hu : validateUniqueColumnNames lo.columns =
        Except.error (PivotErr.validation "Source table has duplicate column names.") := by
      simp only [validateUniqueColumnNames]
      rw [if_neg hnd]
    simp [validateAndGetTable, hv, hf, hu]
  · intro hv lo hf hnd hmiss
    have hu : validateUniqueColumnNames lo.columns = Except.ok () :=
      (validateUniqueColumnNames_ok_iff lo.columns).mpr hnd
    have hm := validateFieldNamesExist_err spec.rowFields spec.columnFields
      spec.dataFields lo.columns hmiss
    simp [validateAndGetTable, hv, hf, hu, hm]
  · intro hv lo hf hnd hmiss hex
    have hu : validateUniqueColumnNames lo.columns = Except.ok () :=
      (validateUniqueColumnNames_ok_iff lo.columns).mpr hnd
    have hm : validateFieldNamesExist spec.rowFields spec.columnFields
        spec.dataFields lo.columns = Except.ok () :=
      (validateFieldNamesExist_ok_iff spec.rowFields spec.columnFields
        spec.dataFields lo.columns).mpr hmiss
    have hp := validatePivotTableNameUnique_err wb spec.pivotTableName hex
    simp [validateAndGetTable, hv, hf, hu, hm, hp]

/-- Witness for C3: the sample specification over the sample workbook passes
all nine invariants and validates, and a specification exceeding the
row-depth cap fails with the row-depth reason. -/
theorem c3_validate_iff_and_first_violation_order_witness :
    (∃ lo, validateAndGetTable wbNoDest (sampleSpec (some DestinationHandling.new))
      = Except.ok lo)
    ∧ validateAndGetTable wbNoDest overdepthSpec
      = Except.error (rowDepthError overdepthSpec) :=
  ⟨(c3_validate_iff_and_first_violation_order wbNoDest
      (sampleSpec (some DestinationHandling.new))).1.mpr
    ⟨by unfold InvRowDepth; decide, by unfold InvColumnDepth; decide,
     by unfold InvDataLower; decide, by unfold InvDataUpper; decide,
     by unfold InvFunctions; decide,
     ⟨sampleTable, rfl⟩,
     by
       intro lo h
       have h2 : (some sampleTable : Option ListObjectRec) = some lo := h
       rw [Option.some.injEq] at h2
       subst h2
       decide,
     by
       intro lo h
       have h2 : (some sampleTable : Option ListObjectRec) = some lo := h
       rw [Option.some.injEq] at h2
       subst h2
       decide,
     by unfold InvPivotNameUnique; decide⟩,
   (c3_validate_iff_and_first_violation_order wbNoDest overdepthSpec).2.1
     (by unfold InvRowDepth; decide)⟩

/-- C5 counterexample: the source's missing-field check is not plain
case-insensitive comparison — it also strips surrounding whitespace. The
requested name `" qty "` has no case-insensitive match among the source
columns `["qty"]` (their lowercasings differ), yet the check passes instead
of reporting it missing. -/
theorem c5_counterexample_strip_not_only_case :
    pyLower " qty " ≠ pyLower "qty"
    ∧ validateFieldNamesExist [⟨" qty ", Option.none⟩] [] [] ["qty"] = Except.ok () := by
  constructor
  · decide
  · rfl

/-- C5 amended: the missing-field check builds the list of all requested
field names (row ++ column ++ data), compares each against the source columns
case-insensitively after stripping leading/trailing whitespace from both
sides, and on failure reports every unmatched name in a single comma-joined
ValidationFailure; in particular, for every source column set containing
`"qty"` or `"QTY"`, a requested field named `"Qty"` passes the check. -/
theorem c5_missing_field_check (rf : List RowFieldSpec) (cf : List ColumnFieldSpec)
    (df : List DataFieldSpec) (cols : List String) :
    (validateFieldNamesExist rf cf df cols = Except.ok () ↔
      ∀ n ∈ requestedNames rf cf df, (cols.map normName).contains (normName n) = true)
    ∧ (missingNames rf cf df cols ≠ [] →
      validateFieldNamesExist rf cf df cols
        = Except.error (fieldsNotFoundError (missingNames rf cf df cols)))
    ∧ (∀ cols2 : List String, "qty" ∈ cols2 ∨ "QTY" ∈ cols2 →
      validateFieldNamesExist [⟨"Qty", Option.none⟩] [] [] cols2 = Except.ok ()) := by
  refine ⟨?_, validateFieldNamesExist_err rf cf df cols, ?_⟩
  · rw [validateFieldNamesExist_ok_iff]
    unfold missingNames
    rw [List.filter_eq_nil_iff]
    constructor
    · intro h n hn
      have := h n hn
      simpa using this
    · intro h n hn
      have hm := List.elem_iff.mp (h n hn)
      obtain ⟨x, hx, hxe⟩ := List.mem_map.mp hm
      simp
      exact ⟨x, hx, hxe⟩
  · intro cols2 h
    apply (validateFieldNamesExist_ok_iff _ _ _ _).mpr
    have hex : ∃ a ∈ cols2, normName a = "qty" := by
      cases h with
      | inl h1 => exact ⟨"qty", h1, by decide⟩
      | inr h1 => exact ⟨"QTY", h1, by decide⟩
    unfold missingNames requestedNames
    have hq : normName "Qty" = "qty" := by decide
    simp [List.filter, hq, decide_eq_true hex]

/-- Witness for the amended C5: a case-variant request passes, and an
unmatched request reports the missing name. -/
theorem c5_missing_field_check_witness :
    validateFieldNamesExist [⟨"Qty", Option.none⟩] [] [] ["QTY"] = Except.ok ()
    ∧ validateFieldNamesExist [⟨"X", Option.none⟩] [] [] ["A"]
      = Except.error (fieldsNotFoundError (missingNames [⟨"X", Option.none⟩] [] [] ["A"])) :=
  ⟨(c5_missing_field_check [] [] [] []).2.2 ["QTY"] (Or.inr (by simp)),
   (c5_missing_field_check [⟨"X", Option.none⟩] [] [] ["A"]).2.1 (by decide)⟩

/-- C6: when validation fails, `generate_pivot` raises that
ValidationFailure with no external effect at all — no destination lookup, no
sheet creation or clearing, no cache or pivot-table build; in particular an
empty data-field list fails with "at least one data field required" before
any destination lookup. -/
theorem c6_validation_failure_has_no_side_effects (wb : Workbook) (spec : PivotSpec) :
    (∀ e, validateAndGetTable wb spec = Except.error e →
      generatePivot wb spec = ([], Except.error e))
    ∧ (spec.dataFields = [] → InvRowDepth spec → InvColumnDepth spec →
      generatePivot wb spec = ([], Except.error noDataFieldError)) := by
  constructor
  · intro e h
    simp [generatePivot, h]
  · intro hd h1 h2
    unfold InvRowDepth at h1
    unfold InvColumnDepth at h2
    have hv : validateSpecInputs spec = Except.error noDataFieldError := by
      unfold validateSpecInputs
      rw [if_neg (Nat.not_lt.mpr h1), if_neg (Nat.not_lt.mpr h2), if_pos (by simp [hd])]
    have h := validateAndGetTable_input_err wb spec _ hv
    simp [generatePivot, h]

/-- Witness for C6: the no-data-field specification aborts with the
data-field reason and an empty effect trace. -/
theorem c6_validation_failure_has_no_side_effects_witness :
    generatePivot wbEmptyDest noDataSpec = ([], Except.error noDataFieldError) :=
  (c6_validation_failure_has_no_side_effects wbEmptyDest noDataSpec).2 rfl
    (by unfold InvRowDepth; decide) (by unfold InvColumnDepth; decide)

/-- C8 (code bug): a specification whose destination-handling policy is
absent (`None`) passes `_validate_spec_inputs` — and full validation — even
though the repository's own tests (`test_validate_spec_inputs_errors`)
require `_validate_spec_inputs` to raise `ValidationError` for it.  The
absent policy then flows into destination resolution. -/
theorem c8_absent_policy_passes_validation :
    (sampleSpec Option.none).destinationHandling = Option.none
    ∧ validateSpecInputs (sampleSpec Option.none) = Except.ok ()
    ∧ validateAndGetTable wbNoDest (sampleSpec Option.none) = Except.ok sampleTable := by
  exact ⟨rfl, rfl, rfl⟩

/-- C9: the pivot-table-name uniqueness check compares names by exact,
case-sensitive equality: it fails exactly when the requested name is
literally present among the workbook's pivot-table names, so a requested name
that is not exactly present — in particular one differing from an existing
name only in letter case — passes without error. -/
theorem c9_pivot_name_uniqueness_case_sensitive (wb : Workbook) (name : String) :
    (validatePivotTableNameUnique wb name = Except.ok ()
      ↔ ∀ sh ∈ wb.sheets, name ∉ sh.pivotNames)
    ∧ ((∃ sh ∈ wb.sheets, name ∈ sh.pivotNames) →
      validatePivotTableNameUnique wb name = Except.error (pivotNameExistsError name))
    ∧ (validatePivotTableNameUnique ⟨[⟨"S", [], ["pivottable1"], Value.pynone⟩]⟩ "PivotTable1"
        = Except.ok ()
      ∧ pyLower "PivotTable1" = pyLower "pivottable1"
      ∧ "PivotTable1" ≠ "pivottable1") :=
  ⟨validatePivotTableNameUnique_ok_iff wb name,
   validatePivotTableNameUnique_err wb name,
   rfl, by decide, by decide⟩

/-- Witness for C9: a fresh name passes, the exact name is rejected. -/
theorem c9_pivot_name_uniqueness_case_sensitive_witness :
    validatePivotTableNameUnique wbTakenName "pt_test" = Except.ok ()
    ∧ validatePivotTableNameUnique wbTakenName "PT_Test"
      = Except.error (pivotNameExistsError "PT_Test") :=
  ⟨(c9_pivot_name_uniqueness_case_sensitive wbTakenName "pt_test").1.mpr (by decide),
   (c9_pivot_name_uniqueness_case_sensitive wbTakenName "PT_Test").2.1
     ⟨takenNameSheet, by simp [wbTakenName], by simp [takenNameSheet]⟩⟩

/-- C10: for every specification accepted by the input validator, the
aggregation-function mapping is total — it never reaches the "Unsupported
summary function" branch — and the three enum members map to three distinct
engine codes. -/
theorem c10_summary_function_mapping_total (spec : PivotSpec)
    (h : validateSpecInputs spec = Except.ok ()) :
    (∀ df ∈ spec.dataFields, ∃ code, summaryFunctionToExcel df.function = Except.ok code)
    ∧ summaryFunctionToExcel (FuncValue.enum SummaryFunction.sum) = Except.ok XL_SUM
    ∧ summaryFunctionToExcel (FuncValue.enum SummaryFunction.count) = Except.ok XL_COUNT
    ∧ summaryFunctionToExcel (FuncValue.enum SummaryFunction.avg) = Except.ok XL_AVG
    ∧ XL_SUM ≠ XL_COUNT ∧ XL_SUM ≠ XL_AVG ∧ XL_COUNT ≠ XL_AVG := by
  refine ⟨?_, rfl, rfl, rfl, by decide, by decide, by decide⟩
  intro df hdf
  obtain ⟨-, -, -, -, i5⟩ := (validateSpecInputs_ok_iff spec).mp h
  obtain ⟨f, hf⟩ := i5 df hdf
  rw [hf]
  cases f
  · exact ⟨XL_SUM, rfl⟩
  · exact ⟨XL_COUNT, rfl⟩
  · exact ⟨XL_AVG, rfl⟩

/-- Witness for C10 on the sample specification. -/
theorem c10_summary_function_mapping_total_witness :
    summaryFunctionToExcel (FuncValue.enum SummaryFunction.sum) = Except.ok XL_SUM :=
  (c10_summary_function_mapping_total (sampleSpec (some DestinationHandling.new)) rfl).2.1

/-- C7 counterexample: a caption equal to the empty string is provided
(`caption = some ""`) on the row field, the force-clear run succeeds, yet no
caption instruction for it is ever issued — the source guards caption setting
with Python truthiness (`if row_field.caption:`), which drops empty
strings. -/
theorem c7_counterexample_empty_caption_not_set :
    emptyCaptionSpec.rowFields = [⟨"Customer", some ""⟩]
    ∧ emptyCaptionSpec.destinationHandling = some DestinationHandling.existingForceClear
    ∧ findSheet wbFullDest emptyCaptionSpec.pivotSheetName = some fullPivotSheet
    ∧ (generatePivot wbFullDest emptyCaptionSpec).2
      = Except.ok (clearSheetContent wbFullDest "Pivot")
    ∧ Effect.setCaption "Customer" "" ∉ (generatePivot wbFullDest emptyCaptionSpec).1 := by
  refine ⟨rfl, rfl, rfl, rfl, by decide⟩

/-- C7 amended: with policy `ReuseForceClear` on an existing destination,
the prior content is cleared before the cache/pivot-table creation and before
any field configuration; then row fields are applied in list order with
1-based positions (caption set when provided and non-empty), then column
fields likewise, then data fields in order with the mapped aggregation code
(caption and number format set when provided and non-empty). -/
theorem c7_force_clear_then_ordered_fields (wb : Workbook) (spec : PivotSpec)
    (sh : SheetRec) (lo : ListObjectRec)
    (hsh : findSheet wb spec.pivotSheetName = some sh)
    (hpol : spec.destinationHandling = some DestinationHandling.existingForceClear)
    (hval : validateAndGetTable wb spec = Except.ok lo)
    (hdata : (dataFieldEffects spec.dataFields).2 = Option.none) :
    generatePivot wb spec =
      (Effect.destinationLookup spec.pivotSheetName :: Effect.clearSheet sh.name ::
        Effect.createCache lo.name ::
        Effect.createPivotTable spec.pivotTableName spec.pivotTopLeftCell ::
        (rowFieldEffects spec.rowFields 1 ++ columnFieldEffects spec.columnFields 1
          ++ (dataFieldEffects spec.dataFields).1 ++ styleEffects spec),
       Except.ok (clearSheetContent wb sh.name))
    ∧ (∀ i f, spec.rowFields.get? i = some f →
        Effect.setOrientation f.name XL_ROW_FIELD ∈ rowFieldEffects spec.rowFields 1
        ∧ Effect.setPosition f.name (1 + i) ∈ rowFieldEffects spec.rowFields 1
        ∧ ∀ c, f.caption = some c → c ≠ "" →
            Effect.setCaption f.name c ∈ rowFieldEffects spec.rowFields 1)
    ∧ (∀ i f, spec.columnFields.get? i = some f →
        Effect.setOrientation f.name XL_COLUMN_FIELD ∈ columnFieldEffects spec.columnFields 1
        ∧ Effect.setPosition f.name (1 + i) ∈ columnFieldEffects spec.columnFields 1
        ∧ ∀ c, f.caption = some c → c ≠ "" →
            Effect.setCaption f.name c ∈ columnFieldEffects spec.columnFields 1)
    ∧ (∀ i df code, spec.dataFields.get? i = some df →
        summaryFunctionToExcel df.function = Except.ok code →
        Effect.setOrientation df.name XL_DATA_FIELD ∈ (dataFieldEffects spec.dataFields).1
        ∧ Effect.setFunction df.name code ∈ (dataFieldEffects spec.dataFields).1
        ∧ (∀ c, df.caption = some c → c ≠ "" →
            Effect.setCaption df.name c ∈ (dataFieldEffects spec.dataFields).1)
        ∧ (∀ fmt, df.numberFormat = some fmt → fmt ≠ "" →
            Effect.setNumberFormat df.name fmt ∈ (dataFieldEffects spec.dataFields).1)) := by
  refine ⟨?_, ?_, ?_, ?_⟩
  · have hres : resolveDestinationSheet wb spec = Except.ok (wb, sh, false) := by
      simp [resolveDestinationSheet, hsh, hpol]
    cases hDE : dataFieldEffects spec.dataFields with
    | mk dfx o =>
      rw [hDE] at hdata
      simp only at hdata
      subst hdata
      simp [generatePivot, hval, hres, hDE, hpol]
  · intro i f h
    exact rowFieldEffects_mem spec.rowFields 1 i f h
  · intro i f h
    exact columnFieldEffects_mem spec.columnFields 1 i f h
  · intro i df code h hcode
    exact dataFieldEffects_mem spec.dataFields i df h hdata code hcode

/-- Witness for the amended C7 at the force-clear fixture. -/
theorem c7_force_clear_then_ordered_fields_witness :
    generatePivot wbFullDest emptyCaptionSpec =
      (Effect.destinationLookup "Pivot" :: Effect.clearSheet "Pivot" ::
        Effect.createCache "Table1" :: Effect.createPivotTable "PT_Test" "A3" ::
        (rowFieldEffects emptyCaptionSpec.rowFields 1
          ++ columnFieldEffects emptyCaptionSpec.columnFields 1
          ++ (dataFieldEffects emptyCaptionSpec.dataFields).1
          ++ styleEffects emptyCaptionSpec),
       Except.ok (clearSheetContent wbFullDest "Pivot")) :=
  (c7_force_clear_then_ordered_fields wbFullDest emptyCaptionSpec fullPivotSheet
    sampleTable rfl rfl rfl rfl).1

end PivotUtil
